import Mathlib

/-!
Verification development for the LDS General Conference downloader
(`gen_conf_downloader.py`).  The Python source is shallowly embedded:
pure functions become Lean functions on `List Char` / `String` / `Nat`,
the cache becomes explicit state passing, and fallible operations return
`Option`.  Regular-expression searches from the source are embedded as
executable scans over character lists that follow the greedy semantics of
the concrete patterns used by the program.
-/

namespace GenConf

/-- Digits of a numeral, most significant first, folded to a `Nat`
(models Python `int(...)` on a digit-only regex capture). -/
def digits_to_nat (l : List Char) : Nat :=
  l.foldl (fun acc c => acc * 10 + (c.toNat - 48)) 0

/-- Substring test: models Python `-1 != s.find(sub)`. -/
def contains_sub (sub l : List Char) : Bool :=
  (List.range (l.length + 1)).any (fun i => sub.isPrefixOf (l.drop i))

/-- Characters kept by `clean_title`: alphanumerics plus the
`keepcharacters` tuple `(' ', '-', '_', '.')` from the source. -/
def keep_char (c : Char) : Bool :=
  c.isAlphanum || c == ' ' || c == '-' || c == '_' || c == '.'

/-- Whitespace stripped by Python `str.rstrip()`. -/
def py_isspace (c : Char) : Bool :=
  c == ' ' || c == '\t' || c == '\n' || c == '\x0b' || c == '\x0c' || c == '\r'

/-- Python `str.rstrip()`: drop trailing whitespace. -/
def rstrip (l : List Char) : List Char :=
  (l.reverse.dropWhile py_isspace).reverse

/-- Tag stripping performed by `MLStripper` (an `HTMLParser` that keeps
only data segments): characters from `<` through the closing `>` are
dropped, an unterminated tag is dropped entirely. -/
def strip_tags : List Char → Bool → List Char
  | [], _ => []
  | c :: rest, true => if c == '>' then strip_tags rest false else strip_tags rest true
  | c :: rest, false => if c == '<' then strip_tags rest true else c :: strip_tags rest false

/-- Named character references converted by the parser
(`convert_charrefs = True`); the common entities appearing in talk
markup. -/
def charref_named : List (List Char × Char) :=
  [("amp".data, '&'), ("lt".data, '<'), ("gt".data, '>'),
   ("quot".data, '"'), ("nbsp".data, ' ')]

/-- Resolve one character reference name (text between `&` and `;`):
decimal numeric references and the named table. -/
def parse_charref (name : List Char) : Option Char :=
  match name with
  | '#' :: ds =>
      if ds ≠ [] && ds.all (fun c => c.isDigit) then some (Char.ofNat (digits_to_nat ds))
      else none
  | _ => (charref_named.find? (fun p => p.1 == name)).map (fun p => p.2)

/-- Character-reference conversion pass (models `convert_charrefs` of the
HTML parser on data segments).  Fueled structural recursion; every step
consumes at least one character, so `fuel = length` is always enough. -/
def convert_charrefs_fuel : Nat → List Char → List Char
  | 0, l => l
  | _ + 1, [] => []
  | fuel + 1, c :: rest =>
    if c == '&' then
      match rest.findIdx? (fun x => x == ';') with
      | some j =>
        match parse_charref (rest.take j) with
        | some ch => ch :: convert_charrefs_fuel fuel (rest.drop (j + 1))
        | none => '&' :: convert_charrefs_fuel fuel rest
      | none => '&' :: convert_charrefs_fuel fuel rest
    else c :: convert_charrefs_fuel fuel rest

/-- Character-reference conversion with sufficient fuel. -/
def convert_charrefs (l : List Char) : List Char :=
  convert_charrefs_fuel l.length l

/-- `clean_title` on character lists: strip markup with `MLStripper`
(tag stripping plus character-reference conversion of data), keep only
alphanumerics and `' '`, `'-'`, `'_'`, `'.'`, then `rstrip`. -/
def clean_title_chars (l : List Char) : List Char :=
  rstrip ((convert_charrefs (strip_tags l false)).filter keep_char)

/-- `clean_title` from the source, on `String`. -/
def clean_title (s : String) : String :=
  (clean_title_chars s.data).asString

/-- The exclusion test applied to cleaned titles: the title contains
`"Sustaining of"` (`-1 != title.find(...)`) or starts with
`"Church Auditing"`. -/
def is_procedural (title : String) : Bool :=
  contains_sub "Sustaining of".data title.data || "Church Auditing".isPrefixOf title

/-- `get_duration_text` from the source: truncated minute/hour/day/week
components, concatenating the non-zero ones. -/
def get_duration_text (duration_secs : Nat) : String :=
  let mins := duration_secs / 60 % 60
  let hours := duration_secs / (60 * 60) % 24
  let days := duration_secs / (60 * 60 * 24) % 7
  let weeks := duration_secs / (60 * 60 * 24 * 7)
  let text := ""
  let text := if weeks != 0 then text ++ toString weeks ++ "w" else text
  let text := if days != 0 then text ++ toString days ++ "d" else text
  let text := if hours != 0 then text ++ toString hours ++ "h" else text
  let text := if mins != 0 then text ++ toString mins ++ "m" else text
  text

/-- Modelled from the spec: the duration text is the concatenation of the
non-zero week, day, hour and minute components of the duration, in that
order, omitting zero components, with fractional minutes truncated and no
seconds field. -/
def spec_duration_text (d : Nat) : String :=
  let weeks := d / (60 * 60 * 24 * 7)
  let days := d % (60 * 60 * 24 * 7) / (60 * 60 * 24)
  let hours := d % (60 * 60 * 24) / (60 * 60)
  let mins := d % (60 * 60) / 60
  (if weeks != 0 then toString weeks ++ "w" else "") ++
  ((if days != 0 then toString days ++ "d" else "") ++
  ((if hours != 0 then toString hours ++ "h" else "") ++
  (if mins != 0 then toString mins ++ "m" else "")))

/-- The configuration record consumed by the core (relevant fields of the
parsed `args` object). -/
structure DlArgs where
  start : Nat
  endYear : Nat
  speaker_min : Nat
  noplaylists : Bool
  nocleanup : Bool
  deriving DecidableEq

/-- `Conference = namedtuple('Conference', 'link title year month')`. -/
structure Conference where
  link : String
  title : String
  year : Nat
  month : Nat
  deriving DecidableEq

/-- `Session = namedtuple('Session', 'conference link title number')`. -/
structure Session where
  conference : Conference
  link : String
  title : String
  number : Nat
  deriving DecidableEq

/-- `Talk = namedtuple('Talk', 'session link title speaker topics')`. -/
structure Talk where
  session : Session
  link : String
  title : String
  speaker : String
  topics : List String
  deriving DecidableEq

/-- `TalkByTopic = namedtuple('TalkByTopic', 'link speaker title topic')`. -/
structure TalkByTopic where
  link : String
  speaker : String
  title : String
  topic : String
  deriving DecidableEq

/-- `Audio = namedtuple('Audio', 'link file')`, over character lists. -/
structure Audio where
  link : List Char
  file : List Char
  deriving DecidableEq

/-- One dict appended to a playlist bucket by `update_playlists`.  The
`year` key is optional in general dict data, which is what
`playlist_data[0].get('year')` tests in `write_playlist_file`. -/
structure PlaylistEntry where
  duration : Nat
  path : String
  title : String
  year : Option Nat
  deriving DecidableEq

/-- The `playlists` dict: association list from group name to bucket. -/
abbrev PlaylistMap := List (String × List PlaylistEntry)

/-- Mutating `playlists[key]` in place: apply `f` to the bucket of `k`
(a key absent from the dict is left untouched; `create_playlists`
guarantees presence in the program). -/
def pl_update (m : PlaylistMap) (k : String) (f : List PlaylistEntry → List PlaylistEntry) :
    PlaylistMap :=
  m.map (fun kv => if kv.1 == k then (kv.1, f kv.2) else kv)

/-- Reading `playlists[key]` (empty bucket for an absent key). -/
def pl_get (m : PlaylistMap) (k : String) : List PlaylistEntry :=
  ((m.find? (fun kv => kv.1 == k)).map (fun kv => kv.2)).getD []

/-- Membership of a key in the dict. -/
def pl_has (m : PlaylistMap) (k : String) : Bool :=
  m.any (fun kv => kv.1 == k)

/-- `playlists.setdefault(key, [])`. -/
def pl_setdefault (m : PlaylistMap) (k : String) : PlaylistMap :=
  if pl_has m k then m else m ++ [(k, [])]

/-- `create_playlists`: pre-create the global bucket and, per talk, the
speaker bucket and one bucket per topic. -/
def create_playlists (all_talks : List Talk) : PlaylistMap :=
  all_talks.foldl
    (fun m talk =>
      let m := pl_setdefault m "Conferences/GC-All"
      let m := pl_setdefault m ("Speakers/GC-S-" ++ talk.speaker)
      talk.topics.foldl (fun m topic => pl_setdefault m ("Topics/GC-T-" ++ topic)) m)
    []

/-- The topic loop of `update_playlists`: prepend the entry to the
bucket of each topic (newest first). -/
def add_topic_entries (entry : PlaylistEntry) (topics : List String) (pl : PlaylistMap) :
    PlaylistMap :=
  topics.foldl (fun m topic => pl_update m ("Topics/GC-T-" ++ topic) (fun l => entry :: l)) pl

/-- `update_playlists`: append the talk's entry (always carrying its
conference year) to the global bucket, prepend it to each of its topic
buckets, and — unless the cleaned title is a sustaining/audit item —
prepend it to the speaker bucket. -/
def update_playlists (playlists : PlaylistMap) (talk : Talk) (duration : Nat) (path : String) :
    PlaylistMap :=
  let entry : PlaylistEntry :=
    { duration := duration, path := path, title := talk.title,
      year := some talk.session.conference.year }
  let pl := pl_update playlists "Conferences/GC-All" (fun l => l ++ [entry])
  let pl := add_topic_entries entry talk.topics pl
  if is_procedural talk.title then pl
  else pl_update pl ("Speakers/GC-S-" ++ talk.speaker) (fun l => entry :: l)

/-- Python truthiness of the optional `year` value read with `.get`. -/
def truthy_year : Option Nat → Bool
  | none => false
  | some n => n != 0

/-- `get_playlist_info`: `"first-last, "` when both years are truthy,
then `"count, "` when the count is truthy, then the duration text. -/
def get_playlist_info (first last : Option Nat) (count : Nat) (duration_secs : Nat) : String :=
  let text :=
    if truthy_year first && truthy_year last then
      toString (first.getD 0) ++ "-" ++ toString (last.getD 0) ++ ", "
    else ""
  let text := if count != 0 then text ++ toString count ++ ", " else text
  text ++ get_duration_text duration_secs

/-- The `#EXTINF` metadata line written per playlist entry. -/
def extinf_line (duration : Nat) (title : String) : String :=
  "#EXTINF:" ++ get_duration_text duration ++ ", " ++ title ++ "\n"

/-- Path separators normalized with `.replace("/", "\\")`. -/
def backslash_path (p : String) : String :=
  (p.data.map (fun c => if c == '/' then '\\' else c)).asString

/-- Body of the playlist file: header line then one metadata line and one
path line per entry, pairs separated by a blank line. -/
def playlist_content (data : List PlaylistEntry) : String :=
  "#EXTM3U\n\n" ++
  String.join (data.map (fun e => extinf_line e.duration e.title ++ backslash_path e.path ++ "\n\n"))

/-- `write_playlist_file` without the filesystem: `none` when no file is
produced, otherwise the produced file name (relative, `-(<info>).m3u`
suffixed) and its content.  An empty bucket yields no file; otherwise the
file is written when the first or last entry lacks a truthy `year` or the
entry count reaches `speaker_min`. -/
def write_playlist_file (speaker_min : Nat) (playlist_path : String)
    (playlist_data : List PlaylistEntry) : Option (String × String) :=
  match playlist_data with
  | [] => none
  | e0 :: _ =>
    let first := e0.year
    let last := match playlist_data.getLast? with
      | some e => e.year
      | none => none
    if truthy_year first = false ∨ truthy_year last = false ∨
        speaker_min ≤ playlist_data.length then
      let count := playlist_data.length
      let info := get_playlist_info first last count
        ((playlist_data.map (fun e => e.duration)).sum)
      some (playlist_path ++ "-(" ++ info ++ ").m3u", playlist_content playlist_data)
    else none

/-- `write_playlists`: serialize every bucket through
`write_playlist_file`, keeping the files actually produced. -/
def write_playlists (args : DlArgs) (playlists : PlaylistMap) : List (String × String) :=
  playlists.filterMap (fun kv => write_playlist_file args.speaker_min kv.1 kv.2)

/-- One tuple produced by `SESSION_TALKS_REGEX`: talk link, raw (markup
bearing) title, speaker. -/
structure TalkInfo where
  link : String
  rawTitle : String
  speaker : String
  deriving DecidableEq

/-- One tuple produced by `SESSIONS_REGEX`: session link, session title,
and the talks parsed from the inner list markup. -/
structure SessionDoc where
  link : String
  title : String
  talks : List TalkInfo
  deriving DecidableEq

/-- A fetched conference document paired with its `Conference` record. -/
structure ConfDoc where
  conference : Conference
  sessions : List SessionDoc
  deriving DecidableEq

/-- `get_all_talks`: walk every conference document, numbering sessions
`10, 20, …` in document order; clean each talk title, join topics by
exact `(cleaned title, speaker)` equality against the topic index (empty
when playlists are disabled), and drop sustaining/audit items. -/
def get_all_talks (args : DlArgs) (tbts : List TalkByTopic) (docs : List ConfDoc) : List Talk :=
  let all_talks_by_topic := if args.noplaylists then [] else tbts
  docs.flatMap (fun cd =>
    cd.sessions.enum.flatMap (fun ns =>
      let session : Session :=
        { conference := cd.conference, link := ns.2.link, title := ns.2.title,
          number := (ns.1 + 1) * 10 }
      ns.2.talks.filterMap (fun ti =>
        let title := clean_title ti.rawTitle
        let speaker := ti.speaker
        let topics := (all_talks_by_topic.filter
          (fun tbt => tbt.title == title && tbt.speaker == speaker)).map
          (fun tbt => tbt.topic)
        if is_procedural title then none
        else some { session := session, link := ti.link, title := title,
                    speaker := speaker, topics := topics })))

/-- One anchor tuple from the top-level conference index
(`CONFERENCES_REGEX` / per-group documents): link and display title. -/
structure CatalogEntry where
  link : String
  title : String
  deriving DecidableEq

/-- One grouped-range anchor (`CONFERENCE_GROUPS_REGEX`), carrying the
document its link fetches (`none` models an empty/failed fetch, the
`if conference_group_html:` guard). -/
structure GroupEntry where
  link : String
  doc : Option (List CatalogEntry)
  deriving DecidableEq

/-- Attempt of `CONFERENCE_LINK_YEAR_MONTH_REGEX`
(`.*(dddd)/(dd)\?lang=.*`) at one position: four digits, a slash, two
digits, then the literal `?lang=`. -/
def year_month_at (t : List Char) : Option (Nat × Nat) :=
  match t with
  | a :: b :: c :: d :: '/' :: e :: f :: rest =>
    if a.isDigit && b.isDigit && c.isDigit && d.isDigit && e.isDigit && f.isDigit &&
        "?lang=".data.isPrefixOf rest then
      some (digits_to_nat [a, b, c, d], digits_to_nat [e, f])
    else none
  | _ => none

/-- `re.match` of `CONFERENCE_LINK_YEAR_MONTH_REGEX` on a link: the
leading greedy `.*` selects the last position where the year/month
pattern matches. -/
def conference_link_year_month (link : List Char) : Option (Nat × Nat) :=
  ((List.range (link.length + 1)).filterMap (fun i => year_month_at (link.drop i))).getLast?

/-- Attempt of `CONFERENCE_GROUPS_RANGE_REGEX` (`.*/(dddd)(dddd)\?lang=.*`)
at one position: a slash, eight digits, then `?lang=`; yields the group's
(start year, end year). -/
def group_range_at (t : List Char) : Option (Nat × Nat) :=
  match t with
  | '/' :: a :: b :: c :: d :: e :: f :: g :: h :: rest =>
    if a.isDigit && b.isDigit && c.isDigit && d.isDigit && e.isDigit && f.isDigit &&
        g.isDigit && h.isDigit && "?lang=".data.isPrefixOf rest then
      some (digits_to_nat [a, b, c, d], digits_to_nat [e, f, g, h])
    else none
  | _ => none

/-- `re.match` of `CONFERENCE_GROUPS_RANGE_REGEX` on a group link (greedy:
last matching position). -/
def conference_group_range (link : List Char) : Option (Nat × Nat) :=
  ((List.range (link.length + 1)).filterMap (fun i => group_range_at (link.drop i))).getLast?

/-- `get_conferences`: keep the anchors whose link parses to a
year/month inside the requested range. -/
def get_conferences (args : DlArgs) (doc : List CatalogEntry) : List Conference :=
  doc.filterMap (fun e =>
    match conference_link_year_month e.link.data with
    | none => none
    | some ym =>
      if ym.1 < args.start ∨ args.endYear < ym.1 then none
      else some { link := e.link, title := e.title, year := ym.1, month := ym.2 })

/-- `get_range_conferences`: for every grouped-range anchor whose year
range overlaps the requested range, scan the group's own document with
`get_conferences`; an empty fetched document contributes nothing. -/
def get_range_conferences (args : DlArgs) (groups : List GroupEntry) : List Conference :=
  groups.flatMap (fun g =>
    match conference_group_range g.link.data with
    | none => []
    | some se =>
      if se.2 < args.start ∨ args.endYear < se.1 then []
      else
        match g.doc with
        | none => []
        | some doc => get_conferences args doc)

/-- The top-level catalog document: direct per-conference anchors and
grouped-range anchors. -/
structure CatalogDoc where
  direct : List CatalogEntry
  groups : List GroupEntry
  deriving DecidableEq

/-- `get_all_conferences`: direct pass, then grouped-range pass, then a
global reverse (source documents list newest first). -/
def get_all_conferences (args : DlArgs) (cat : CatalogDoc) : List Conference :=
  (get_conferences args cat.direct ++ get_range_conferences args cat.groups).reverse

/-- Strict (year, month) lexicographic order on conferences. -/
def conf_lt (a b : Conference) : Prop :=
  a.year < b.year ∨ (a.year = b.year ∧ a.month < b.month)

instance : DecidableRel conf_lt := by
  intro a b; unfold conf_lt; infer_instance

/-- Opening literal of `MP3_MEDIAURL_REGEX`. -/
def mediaurl_open : List Char := "\x7b\"mediaUrl\":\"".data

/-- Closing literal of `MP3_MEDIAURL_REGEX`. -/
def mediaurl_close : List Char := "\",\"variant\":\"audio\"\x7d".data

/-- Attempt of `MP3_MEDIAURL_REGEX` at one position: the opening literal,
a quote-free capture, then the closing literal tagging the audio
variant. -/
def mediaurl_at (t : List Char) : Option (List Char) :=
  if mediaurl_open.isPrefixOf t then
    let rest := t.drop mediaurl_open.length
    let cap := rest.takeWhile (fun c => c != '"')
    if mediaurl_close.isPrefixOf (rest.drop cap.length) then some cap else none
  else none

/-- `re.search` of `MP3_MEDIAURL_REGEX`: first position with a match. -/
def mediaurl_search (s : List Char) : Option (List Char) :=
  ((List.range (s.length + 1)).filterMap (fun i => mediaurl_at (s.drop i))).head?

/-- Index of the last occurrence of `pat` in `s`. -/
def last_occurrence (pat s : List Char) : Option Nat :=
  ((List.range (s.length + 1)).filter (fun i => pat.isPrefixOf (s.drop i))).getLast?

/-- `re.match` of `MP3_DOWNLOAD_FILENAME_REGEX` (`.*/(.*\.mp3)\?lang=.*`)
on a link, greedy: the capture runs from after the last slash that
precedes the last `.mp3?lang=` occurrence up to the end of that `.mp3`. -/
def mp3_download_filename (s : List Char) : Option (List Char) :=
  match last_occurrence ".mp3?lang=".data s with
  | none => none
  | some q =>
    match ((List.range q).filter (fun i => (s.drop i).head? == some '/')).getLast? with
    | none => none
    | some p => some ((s.drop (p + 1)).take (q + 4 - (p + 1)))

/-- `re.match` of `MP3_MEDIAURL_FILENAME_REGEX` (`.*/(.*\.mp3)`) on a
link, greedy: capture from after the last slash preceding the last
`.mp3` occurrence up to the end of that `.mp3`. -/
def mp3_mediaurl_filename (s : List Char) : Option (List Char) :=
  match last_occurrence ".mp3".data s with
  | none => none
  | some q =>
    match ((List.range q).filter (fun i => (s.drop i).head? == some '/')).getLast? with
    | none => none
    | some p => some ((s.drop (p + 1)).take (q + 4 - (p + 1)))

/-- `get_audio` over the two pattern-search results on the talk document:
`mp3_link` is the captured link of the direct MP3 anchor
(`MP3_DOWNLOAD_REGEX`) when present; `script_data` is the decoded text of
the base64 script blob (`SCRIPT_BASE64_REGEX`) when present.  Tier 1 is
used whenever the direct anchor matched; the script blob is consulted
only otherwise; failing filename derivation yields `none`. -/
def get_audio (mp3_link : Option (List Char)) (script_data : Option (List Char)) :
    Option Audio :=
  match mp3_link with
  | some link =>
    match mp3_download_filename link with
    | some f => some { link := link, file := f }
    | none => none
  | none =>
    match script_data with
    | none => none
    | some data =>
      match mediaurl_search data with
      | none => none
      | some link =>
        match mp3_mediaurl_filename link with
        | some f => some { link := link, file := f }
        | none => none

/-- The HTML cache: one entry per normalized URL. -/
abbrev Cache := List (String × String)

/-- Cache read (`get_from_cache`): the first entry for the URL. -/
def cache_lookup (cache : Cache) (url : String) : Option String :=
  ((cache.find? (fun kv => kv.1 == url)).map (fun kv => kv.2))

/-- Cache write (`add_to_cache`): overwrite the entry for the URL, or
append a fresh one. -/
def cache_put (cache : Cache) (url html : String) : Cache :=
  if cache.any (fun kv => kv.1 == url) then
    cache.map (fun kv => if kv.1 == url then (kv.1, html) else kv)
  else cache ++ [(url, html)]

/-- The network fetch inside `get_html`: `none` models any request or
decompression failure (the `except` branch returning `''`). -/
def fetch_and_cache (net : String → Option String) (nocache : Bool) (url : String)
    (cache : Cache) : String × Cache :=
  match net url with
  | some html => (html, if nocache then cache else cache_put cache url html)
  | none => ("", cache)

/-- `get_html`: cache-aside fetch.  With `nocache` the cache is neither
consulted nor written; otherwise a non-empty cached document is returned
as is (`if cached:` — an empty cached string is falsy and refetched) and
a successful fetch is written back. -/
def get_html (net : String → Option String) (nocache : Bool) (url : String)
    (cache : Cache) : String × Cache :=
  let cached := if nocache then none else cache_lookup cache url
  match cached with
  | some h => if h != "" then (h, cache) else fetch_and_cache net nocache url cache
  | none => fetch_and_cache net nocache url cache

/-- The distinct `get_html` call sites of the pipeline. -/
inductive FetchSite
  | languages
  | conference_index
  | conference_doc
  | group_doc
  | topic_index
  | topic_doc
  | talk_detail
  deriving DecidableEq

/-- The `nocache` argument each call site passes to `get_html`:
`nocache=args.nocleanup` for the languages page, the conference index,
per-conference documents, the topic index and per-topic documents; the
default `False` for grouped-range documents and talk detail pages. -/
def site_nocache (nocleanup : Bool) : FetchSite → Bool
  | .languages => nocleanup
  | .conference_index => nocleanup
  | .conference_doc => nocleanup
  | .group_doc => false
  | .topic_index => nocleanup
  | .topic_doc => nocleanup
  | .talk_detail => false

/-- One unit of the resolve-and-download loop: the talk, and the
`(duration, relative path)` of its audio when resolution and download
succeeded (`none` when the talk has no recording or the download
failed). -/
structure WorkUnit where
  talk : Talk
  result : Option (Nat × String)
  deriving DecidableEq

/-- The playlist bookkeeping performed for one loop unit: aggregation
happens only for a successfully downloaded talk with playlists enabled. -/
def process_unit (args : DlArgs) (pl : PlaylistMap) (u : WorkUnit) : PlaylistMap :=
  match u.result with
  | some dp => if args.noplaylists then pl else update_playlists pl u.talk dp.1 dp.2
  | none => pl

/-- The resolve-and-download loop: each unit is processed to completion,
then the cancellation flag is polled (the head of the schedule);
observing it stops the loop with the flag raised. -/
def resolve_and_download (args : DlArgs) :
    List Bool → PlaylistMap → List WorkUnit → PlaylistMap × Bool
  | _, pl, [] => (pl, false)
  | cancel, pl, u :: rest =>
    let pl := process_unit args pl u
    if cancel.headD false then (pl, true)
    else resolve_and_download args cancel.tail pl rest

/-- Outcome of `download_all_content`: either the progress context's
`__exit__` terminated the process (GUI cancellation calls `sys.exit(2)`),
or the pipeline completed, with the playlist files written when playlist
generation was enabled. -/
inductive RunResult
  | exited (code : Nat)
  | completed (written : Option (List (String × String)))
  deriving DecidableEq

/-- `download_all_content` after talk extraction: build the initial
buckets, run the resolve-and-download loop, and only when the loop's
`with` block exits without a pending cancellation write the playlists
out.  A raised cancellation makes the progress context call
`sys.exit(2)` before playlist writing is reached. -/
def download_all_content (args : DlArgs) (cancel : List Bool) (units : List WorkUnit) :
    RunResult :=
  let all_talks := units.map (fun u => u.talk)
  let pl0 : PlaylistMap := if args.noplaylists then [] else create_playlists all_talks
  let r := resolve_and_download args cancel pl0 units
  if r.2 then RunResult.exited 2
  else RunResult.completed (if args.noplaylists then none else some (write_playlists args r.1))

/-! Concrete fixtures used to evaluate the embedded pipeline. -/

/-- A configuration requesting 1971–2021 with playlists enabled and the
default speaker minimum of 3. -/
def args0 : DlArgs :=
  { start := 1971, endYear := 2021, speaker_min := 3, noplaylists := false, nocleanup := false }

/-- The same configuration with playlist generation disabled. -/
def argsNP : DlArgs :=
  { start := 1971, endYear := 2021, speaker_min := 3, noplaylists := true, nocleanup := false }

/-- A sample conference record. -/
def conf0 : Conference :=
  { link := "/study/general-conference/2020/04?lang=eng", title := "April 2020",
    year := 2020, month := 4 }

/-- A sample topic index: two association records. -/
def tbts0 : List TalkByTopic :=
  [{ link := "/t1", speaker := "Pres A", title := "Faith Works", topic := "Faith" },
   { link := "/t2", speaker := "Pres B", title := "Other Talk", topic := "Hope" }]

/-- A sample crawled conference document: one session holding a regular
talk (with markup in its raw title) and a sustaining item. -/
def docs0 : List ConfDoc :=
  [{ conference := conf0,
     sessions :=
       [{ link := "/s1", title := "Saturday Morning",
          talks :=
            [{ link := "/talk1", rawTitle := "<b>Faith Works</b>", speaker := "Pres A" },
             { link := "/talk2", rawTitle := "Sustaining of General Authorities",
               speaker := "Pres B" }] }] }]

/-- The session record the extractor builds for `docs0`. -/
def sess0 : Session :=
  { conference := conf0, link := "/s1", title := "Saturday Morning", number := 10 }

/-- The talk the extractor keeps from `docs0` (playlists enabled). -/
def talk0 : Talk :=
  { session := sess0, link := "/talk1", title := "Faith Works", speaker := "Pres A",
    topics := ["Faith"] }

/-- The talk the extractor keeps from `docs0` when playlists are
disabled (no topic join). -/
def talk0NP : Talk :=
  { session := sess0, link := "/talk1", title := "Faith Works", speaker := "Pres A",
    topics := [] }

/-- A sustaining item carrying a topic association. -/
def talkP : Talk :=
  { session := sess0, link := "/talk2", title := "Sustaining of General Authorities",
    speaker := "Pres B", topics := ["Priesthood"] }

/-- Buckets pre-created for `talkP`. -/
def plP : PlaylistMap := create_playlists [talkP]

/-- Playlist entries used to exercise `write_playlist_file`. -/
def entry1 : PlaylistEntry :=
  { duration := 240, path := "../MP3/a.mp3", title := "A Talk", year := some 2020 }

def entry2 : PlaylistEntry :=
  { duration := 60, path := "../MP3/b.mp3", title := "B Talk", year := some 2020 }

def entry3 : PlaylistEntry :=
  { duration := 60, path := "../MP3/c.mp3", title := "C Talk", year := some 2021 }

/-- A simulated top-level catalog: one direct anchor (2021) and one
grouped-range anchor (1971–1979) whose document holds the April 1971
conference. -/
def cat0 : CatalogDoc :=
  { direct := [{ link := "/study/general-conference/2021/04?lang=eng", title := "April 2021" }],
    groups :=
      [{ link := "/study/general-conference/19711979?lang=eng",
         doc := some [{ link := "/study/general-conference/1971/04?lang=eng",
                        title := "April 1971" }] }] }

/-- A decoded script blob containing only the embedded media-URL
fragment tagged as the audio variant. -/
def script0 : List Char :=
  "ab\x7b\"mediaUrl\":\"https://x.org/a/b/talk.mp3\",\"variant\":\"audio\"\x7dcd".data

/-- A direct MP3 anchor link with a language query suffix. -/
def dl_link0 : List Char :=
  "https://y.org/c/d/talkb.mp3?lang=eng&x=1".data

/-- Work units for the orchestrator model: two successfully resolved
talks. -/
def unit1 : WorkUnit := { talk := talk0, result := some (120, "../MP3/2020/April/S/a.mp3") }

def unit2 : WorkUnit := { talk := talk0, result := some (130, "../MP3/2020/April/S/b.mp3") }

def units1 : List WorkUnit := [unit1, unit2]

/-- A network map for the fetcher model. -/
def net0 : String → Option String :=
  fun u => if u == "http://host/page" then some "<html>page</html>" else none

/-- A cache holding a previously fetched copy of the same page. -/
def cache0 : Cache := [("http://host/page", "cached-copy")]

/-! Helper lemmas. -/

theorem mem_rstrip {c : Char} {l : List Char} (h : c ∈ rstrip l) : c ∈ l := by
  unfold rstrip at h
  rw [List.mem_reverse] at h
  exact List.mem_reverse.mp ((List.dropWhile_sublist py_isspace).subset h)

theorem dropWhile_idem (p : Char → Bool) (l : List Char) :
    List.dropWhile p (List.dropWhile p l) = List.dropWhile p l := by
  induction l with
  | nil => rfl
  | cons a t ih =>
    by_cases h : p a = true <;> simp [List.dropWhile_cons, h, ih]

theorem rstrip_idem (l : List Char) : rstrip (rstrip l) = rstrip l := by
  unfold rstrip
  rw [List.reverse_reverse, dropWhile_idem]

theorem head?_dropWhile_not (p : Char → Bool) :
    ∀ (l : List Char) (c : Char), (List.dropWhile p l).head? = some c → p c = false := by
  intro l
  induction l with
  | nil => intro c h; simp [List.dropWhile] at h
  | cons a t ih =>
    intro c h
    by_cases hp : p a = true
    · rw [List.dropWhile_cons, if_pos hp] at h
      exact ih c h
    · rw [List.dropWhile_cons, if_neg hp] at h
      simp at h
      rw [← h]
      exact Bool.eq_false_iff.mpr hp

theorem getLast?_rstrip {l : List Char} {c : Char} (h : (rstrip l).getLast? = some c) :
    py_isspace c = false := by
  unfold rstrip at h
  rw [List.getLast?_reverse] at h
  exact head?_dropWhile_not _ _ _ h

theorem strip_tags_id {l : List Char} (h : ∀ c ∈ l, keep_char c = true) :
    strip_tags l false = l := by
  induction l with
  | nil => rfl
  | cons a t ih =>
    have ha : keep_char a = true := h a (List.mem_cons_self a t)
    have hlt : (a == '<') = false := by
      cases hq : a == '<'
      · rfl
      · exact absurd (eq_of_beq hq ▸ ha) (by decide)
    simp only [strip_tags, hlt, Bool.false_eq_true, if_false, List.cons.injEq, true_and]
    exact ih (fun c hc => h c (List.mem_cons_of_mem _ hc))

theorem convert_charrefs_fuel_id (fuel : Nat) :
    ∀ {l : List Char}, (∀ c ∈ l, keep_char c = true) → convert_charrefs_fuel fuel l = l := by
  induction fuel with
  | zero => intro l _; rfl
  | succ n ih =>
    intro l h
    cases l with
    | nil => rfl
    | cons a t =>
      have ha : keep_char a = true := h a (List.mem_cons_self a t)
      have hamp : (a == '&') = false := by
        cases hq : a == '&'
        · rfl
        · exact absurd (eq_of_beq hq ▸ ha) (by decide)
      simp only [convert_charrefs_fuel, hamp, Bool.false_eq_true, if_false, List.cons.injEq,
        true_and]
      exact ih (fun c hc => h c (List.mem_cons_of_mem _ hc))

theorem convert_charrefs_id {l : List Char} (h : ∀ c ∈ l, keep_char c = true) :
    convert_charrefs l = l :=
  convert_charrefs_fuel_id _ h

theorem mem_clean_keep {c : Char} {l : List Char} (h : c ∈ clean_title_chars l) :
    keep_char c = true := by
  unfold clean_title_chars at h
  exact (List.mem_filter.mp (mem_rstrip h)).2

theorem clean_title_chars_idem (l : List Char) :
    clean_title_chars (clean_title_chars l) = clean_title_chars l := by
  have hk : ∀ c ∈ clean_title_chars l, keep_char c = true := fun c hc => mem_clean_keep hc
  have hr : rstrip (clean_title_chars l) = clean_title_chars l := by
    unfold clean_title_chars
    exact rstrip_idem _
  calc clean_title_chars (clean_title_chars l)
      = rstrip ((convert_charrefs (strip_tags (clean_title_chars l) false)).filter keep_char) :=
        rfl
    _ = rstrip ((convert_charrefs (clean_title_chars l)).filter keep_char) := by
        rw [strip_tags_id hk]
    _ = rstrip ((clean_title_chars l).filter keep_char) := by rw [convert_charrefs_id hk]
    _ = rstrip (clean_title_chars l) := by rw [List.filter_eq_self.mpr hk]
    _ = clean_title_chars l := hr

theorem data_clean_title (s : String) : (clean_title s).data = clean_title_chars s.data := rfl

/-- C7: title cleaning is idempotent — `clean(clean(x)) = clean(x)` for
every input string — and its output contains only alphanumeric
characters, spaces and the characters `-`, `_`, `.` (the `keep_char`
set), with no trailing whitespace. -/
theorem clean_title_idem_and_charset :
    ∀ s : String,
      clean_title (clean_title s) = clean_title s
      ∧ (∀ c ∈ (clean_title s).data, keep_char c = true)
      ∧ (∀ c : Char, (clean_title s).data.getLast? = some c → py_isspace c = false) := by
  intro s
  refine ⟨?_, ?_, ?_⟩
  · show (clean_title_chars (clean_title s).data).asString = clean_title s
    rw [data_clean_title, clean_title_chars_idem]
    rfl
  · intro c hc
    rw [data_clean_title] at hc
    exact mem_clean_keep hc
  · intro c hc
    rw [data_clean_title] at hc
    exact getLast?_rstrip hc

/-- Witness for C7 at the concrete markup-bearing title
`"<b>Faith &amp; Works</b>  "` (cleaned form `"Faith  Works"`). -/
theorem clean_title_idem_and_charset_witness :
    clean_title (clean_title "<b>Faith &amp; Works</b>  ")
        = clean_title "<b>Faith &amp; Works</b>  "
      ∧ keep_char 'F' = true
      ∧ py_isspace 's' = false :=
  ⟨(clean_title_idem_and_charset "<b>Faith &amp; Works</b>  ").1,
   (clean_title_idem_and_charset "<b>Faith &amp; Works</b>  ").2.1 'F' (by decide),
   (clean_title_idem_and_charset "<b>Faith &amp; Works</b>  ").2.2 's' (by decide)⟩

/-- C8: for every non-negative duration, `get_duration_text` is the
concatenation of the non-zero week, day, hour and minute components in
that order (zero components omitted, no seconds field, fractional
minutes truncated), as described by `spec_duration_text`; in particular
125 s → `"2m"`, 3725 s → `"1h2m"`, 694861 s → `"1w1d1h1m"`. -/
theorem get_duration_text_correct :
    (∀ d : Nat, get_duration_text d = spec_duration_text d)
    ∧ get_duration_text 125 = "2m"
    ∧ get_duration_text 3725 = "1h2m"
    ∧ get_duration_text 694861 = "1w1d1h1m" := by
  refine ⟨?_, by decide, by decide, by decide⟩
  intro d
  have h1 : d / 60 % 60 = d % (60 * 60) / 60 := (Nat.mod_mul_right_div_self d 60 60).symm
  have h2 : d / (60 * 60) % 24 = d % (60 * 60 * 24) / (60 * 60) := by
    have := (Nat.mod_mul_right_div_self d (60 * 60) 24).symm
    rwa [Nat.mul_assoc] at this
  have h3 : d / (60 * 60 * 24) % 7 = d % (60 * 60 * 24 * 7) / (60 * 60 * 24) := by
    have := (Nat.mod_mul_right_div_self d (60 * 60 * 24) 7).symm
    rwa [Nat.mul_assoc, Nat.mul_assoc] at this
  simp only [get_duration_text, spec_duration_text, h1, h2, h3]
  by_cases hw : (d / (60 * 60 * 24 * 7) != 0) = true <;>
    by_cases hd : (d % (60 * 60 * 24 * 7) / (60 * 60 * 24) != 0) = true <;>
      by_cases hh : (d % (60 * 60 * 24) / (60 * 60) != 0) = true <;>
        by_cases hm : (d % (60 * 60) / 60 != 0) = true <;>
          simp [hw, hd, hh, hm, String.append_assoc, String.empty_append, String.append_empty]

/-- C10: a duration under one minute has empty duration text, so the
`#EXTINF` metadata line degenerates to `"#EXTINF:, "` before the title
and a playlist file's summary suffix is the same as for a zero duration
(its duration component is empty). -/
theorem sub_minute_duration_text_empty :
    ∀ d : Nat, d < 60 →
      get_duration_text d = ""
      ∧ (∀ title : String, extinf_line d title = "#EXTINF:, " ++ title ++ "\n")
      ∧ (∀ (first last : Option Nat) (count : Nat),
          get_playlist_info first last count d = get_playlist_info first last count 0) := by
  intro d hd
  have h60 : d / 60 = 0 := Nat.div_eq_of_lt hd
  have h3600 : d / (60 * 60) = 0 := Nat.div_eq_of_lt (lt_trans hd (by norm_num))
  have h86400 : d / (60 * 60 * 24) = 0 := Nat.div_eq_of_lt (lt_trans hd (by norm_num))
  have h604800 : d / (60 * 60 * 24 * 7) = 0 := Nat.div_eq_of_lt (lt_trans hd (by norm_num))
  have htext : get_duration_text d = "" := by
    simp [get_duration_text, h60, h3600, h86400, h604800]
  refine ⟨htext, ?_, ?_⟩
  · intro title
    unfold extinf_line
    rw [htext]
    rw [show ("#EXTINF:" ++ "" : String) = "#EXTINF:" from by decide]
    rw [show ("#EXTINF:" ++ ", " : String) = "#EXTINF:, " from by decide]
  · intro first last count
    unfold get_playlist_info
    rw [htext, show get_duration_text 0 = "" from by decide]

/-- Witness for C10 at 45 seconds. -/
theorem sub_minute_duration_text_empty_witness :
    get_duration_text 45 = ""
    ∧ extinf_line 45 "A Talk" = "#EXTINF:, " ++ "A Talk" ++ "\n"
    ∧ get_playlist_info (some 2020) (some 2021) 2 45
        = get_playlist_info (some 2020) (some 2021) 2 0 :=
  ⟨(sub_minute_duration_text_empty 45 (by decide)).1,
   (sub_minute_duration_text_empty 45 (by decide)).2.1 "A Talk",
   (sub_minute_duration_text_empty 45 (by decide)).2.2 (some 2020) (some 2021) 2⟩

/-- C1 (divergence witness): with `speaker_min = 3`, a speaker bucket of
two entries yields no file and one of three entries yields a file — but
the same minimum is applied to a one-entry topic bucket and a two-entry
global bucket, because every entry aggregated by `update_playlists`
carries a `year` (last conjunct), so the `year`-based "speaker" test of
`write_playlist_file` matches every group and the below-minimum
non-speaker buckets produce no file either, contrary to the claim. -/
theorem min_count_threshold_hits_non_speaker_groups :
    write_playlist_file 3 "Speakers/GC-S-X" [entry1, entry2] = none
    ∧ (write_playlist_file 3 "Speakers/GC-S-X" [entry1, entry2, entry3]).isSome = true
    ∧ write_playlist_file 3 "Topics/GC-T-Faith" [entry1] = none
    ∧ write_playlist_file 3 "Conferences/GC-All" [entry1, entry2] = none
    ∧ pl_get (update_playlists plP talkP 240 "../MP3/p.mp3") "Topics/GC-T-Priesthood"
        = [{ duration := 240, path := "../MP3/p.mp3",
             title := "Sustaining of General Authorities", year := some 2020 }] := by
  refine ⟨by decide, by decide, by decide, by decide, by decide⟩

/-- C4: `get_audio` tries the direct MP3 anchor first — when it matched,
the script blob is never consulted — and only otherwise decodes the
script blob and searches it for the audio-variant media URL.  It returns
an `Audio` (link and derived filename) when the used tier's filename
derivation succeeds, and `none` when neither pattern is present, the
media-URL search fails, or no filename can be derived from the found
link; for a document with only the script variant it returns the URL and
filename extracted from the decoded fragment. -/
theorem get_audio_two_tier :
    get_audio none none = none
    ∧ (∀ (link : List Char) (sd : Option (List Char)),
        mp3_download_filename link = none → get_audio (some link) sd = none)
    ∧ (∀ (link f : List Char) (sd : Option (List Char)),
        mp3_download_filename link = some f →
          get_audio (some link) sd = some { link := link, file := f })
    ∧ (∀ s : List Char, mediaurl_search s = none → get_audio none (some s) = none)
    ∧ (∀ s link : List Char,
        mediaurl_search s = some link → mp3_mediaurl_filename link = none →
          get_audio none (some s) = none)
    ∧ (∀ s link f : List Char,
        mediaurl_search s = some link → mp3_mediaurl_filename link = some f →
          get_audio none (some s) = some { link := link, file := f }) := by
  refine ⟨rfl, ?_, ?_, ?_, ?_, ?_⟩
  · intro link sd h
    simp [get_audio, h]
  · intro link f sd h
    simp [get_audio, h]
  · intro s h
    simp [get_audio, h]
  · intro s link h1 h2
    simp [get_audio, h1, h2]
  · intro s link f h1 h2
    simp [get_audio, h1, h2]

/-- Witness for C4: a document with only the embedded script variant
resolves to the decoded media URL and its derived filename, and a direct
anchor resolves from its own link with the script ignored. -/
theorem get_audio_two_tier_witness :
    get_audio none (some script0)
        = some { link := "https://x.org/a/b/talk.mp3".data, file := "talk.mp3".data }
    ∧ get_audio (some dl_link0) (some script0)
        = some { link := dl_link0, file := "talkb.mp3".data } :=
  ⟨get_audio_two_tier.2.2.2.2.2 script0 "https://x.org/a/b/talk.mp3".data "talk.mp3".data
      (by decide) (by decide),
   get_audio_two_tier.2.2.1 dl_link0 "talkb.mp3".data (some script0) (by decide)⟩

/-- C6: `get_all_conferences` is the concatenation of the direct pass
and the grouped-range pass, globally reversed; for any catalog whose two
extracted passes come out newest-first (strictly descending in
(year, month)) and whose oldest extracted conference sits in the minimum
requested year, the returned list starts at the minimum requested year
and is strictly ascending by (year, month). -/
theorem get_all_conferences_ascending :
    ∀ (args : DlArgs) (cat : CatalogDoc),
      (get_conferences args cat.direct ++ get_range_conferences args cat.groups).Pairwise
        (fun a b => conf_lt b a) →
      ((get_conferences args cat.direct ++ get_range_conferences args cat.groups).getLast?).map
          Conference.year = some args.start →
      ((get_all_conferences args cat).head?).map Conference.year = some args.start
        ∧ (get_all_conferences args cat).Pairwise conf_lt := by
  intro args cat hsort hlast
  unfold get_all_conferences
  refine ⟨?_, ?_⟩
  · rw [List.head?_reverse]
    exact hlast
  · exact List.pairwise_reverse.mpr hsort

/-- Witness for C6 on `cat0`, a simulated index with one direct entry
(April 2021) and one grouped-range entry (1971–1979 holding April 1971),
under the requested range 1971–2021. -/
theorem get_all_conferences_ascending_witness :
    ((get_all_conferences args0 cat0).head?).map Conference.year = some 1971
    ∧ (get_all_conferences args0 cat0).Pairwise conf_lt :=
  get_all_conferences_ascending args0 cat0 (by decide) (by decide)

/-- C9: with `nocleanup` set, the languages page, conference index,
conference documents, topic index and topic documents pass
`nocache = true`, under which `get_html` neither reads nor writes the
cache (its result ignores the cache and leaves it unchanged), while talk
detail pages always pass `nocache = false`, under which a non-empty
cached copy is returned as-is and a fetched document is written back. -/
theorem nocleanup_cache_bypass :
    ∀ (nocleanup : Bool) (net : String → Option String) (url h : String) (cache : Cache),
      (site_nocache true FetchSite.languages = true
        ∧ site_nocache true FetchSite.conference_index = true
        ∧ site_nocache true FetchSite.conference_doc = true
        ∧ site_nocache true FetchSite.topic_index = true
        ∧ site_nocache true FetchSite.topic_doc = true
        ∧ site_nocache nocleanup FetchSite.talk_detail = false)
      ∧ get_html net true url cache = ((net url).getD "", cache)
      ∧ (cache_lookup cache url = some h → h ≠ "" →
          get_html net false url cache = (h, cache))
      ∧ (cache_lookup cache url = none → net url = some h →
          get_html net false url cache = (h, cache_put cache url h)) := by
  intro nocleanup net url h cache
  refine ⟨⟨rfl, rfl, rfl, rfl, rfl, by cases nocleanup <;> rfl⟩, ?_, ?_, ?_⟩
  · unfold get_html fetch_and_cache
    cases hnet : net url <;> simp [hnet]
  · intro hlook hne
    have hbne : (h != "") = true := bne_iff_ne.mpr hne
    simp [get_html, hlook, hbne]
  · intro hlook hnet
    simp [get_html, hlook, fetch_and_cache, hnet]

/-- Witness for C9: the cached page is ignored under `nocache`, returned
under the default, and a fetch on a cold cache writes through. -/
theorem nocleanup_cache_bypass_witness :
    get_html net0 true "http://host/page" cache0 = ("<html>page</html>", cache0)
    ∧ get_html net0 false "http://host/page" cache0 = ("cached-copy", cache0)
    ∧ get_html net0 false "http://host/page" []
        = ("<html>page</html>", cache_put [] "http://host/page" "<html>page</html>") :=
  ⟨(nocleanup_cache_bypass false net0 "http://host/page" "x" cache0).2.1,
   (nocleanup_cache_bypass false net0 "http://host/page" "cached-copy" cache0).2.2.1
      (by decide) (by decide),
   (nocleanup_cache_bypass false net0 "http://host/page" "<html>page</html>" []).2.2.2
      (by decide) (by decide)⟩

theorem resolve_snd_indep (args : DlArgs) :
    ∀ (units : List WorkUnit) (cancel : List Bool) (pl pl' : PlaylistMap),
      (resolve_and_download args cancel pl units).2
        = (resolve_and_download args cancel pl' units).2 := by
  intro units
  induction units with
  | nil => intro cancel pl pl'; rfl
  | cons u rest ih =>
    intro cancel pl pl'
    unfold resolve_and_download
    cases hc : cancel.headD false
    · simp only [hc, Bool.false_eq_true, if_false]
      exact ih cancel.tail _ _
    · simp only [hc, if_true]

/-- C3 (counterexample): with playlists enabled, a cancellation observed
after the first talk of `units1` makes the pipeline terminate with exit
status 2 — `download_all_content` never reaches playlist writing, so the
already-aggregated groups are not written, contrary to the claim. -/
theorem cancellation_skips_playlist_write :
    (resolve_and_download args0 [true] [] units1).2 = true
    ∧ download_all_content args0 [true] units1 = RunResult.exited 2 := by
  refine ⟨by decide, by decide⟩

/-- C3 (amended): when the cancellation signal is observed during the
resolve-and-download loop, the unit in flight completes (the poll
happens after each unit, stopping the loop immediately with the flag
raised), and the pipeline terminates through the progress context with
exit status 2 — the aggregated playlist groups are not written. -/
theorem cancellation_exits_with_status_two :
    ∀ (args : DlArgs) (cancel : List Bool) (units : List WorkUnit),
      ((resolve_and_download args cancel [] units).2 = true →
        download_all_content args cancel units = RunResult.exited 2)
      ∧ (∀ (pl : PlaylistMap) (u : WorkUnit) (rest : List WorkUnit) (ct : List Bool),
          resolve_and_download args (true :: ct) pl (u :: rest)
            = (process_unit args pl u, true)) := by
  intro args cancel units
  constructor
  · intro hc
    have h2 : (resolve_and_download args cancel
        (if args.noplaylists then [] else create_playlists (units.map (fun u => u.talk)))
        units).2 = true := by
      rw [resolve_snd_indep args units cancel _ []]
      exact hc
    simp only [download_all_content, h2, if_true]
  · intro pl u rest ct
    unfold resolve_and_download
    simp [List.headD]

/-- Witness for the amended C3 at the concrete cancelled run. -/
theorem cancellation_exits_with_status_two_witness :
    download_all_content args0 [true] units1 = RunResult.exited 2
    ∧ resolve_and_download args0 [true] [] (unit1 :: [unit2])
        = (process_unit args0 [] unit1, true) :=
  ⟨(cancellation_exits_with_status_two args0 [true] units1).1 (by decide),
   (cancellation_exits_with_status_two args0 [true] units1).2 [] unit1 [unit2] []⟩

/-- C5: every talk built by the extractor has as topics exactly the
topic names of the `TalkByTopic` records whose (cleaned title, speaker)
pair equals the talk's own, under (case-sensitive) string equality —
stated as an order-independent membership equivalence — and when
playlist generation is disabled the join is skipped and the topic list
is always empty. -/
theorem talk_topics_join :
    ∀ (args : DlArgs) (tbts : List TalkByTopic) (docs : List ConfDoc) (t : Talk),
      t ∈ get_all_talks args tbts docs →
      (args.noplaylists = false →
        ∀ x : String,
          x ∈ t.topics ↔ ∃ tbt ∈ tbts, tbt.title = t.title ∧ tbt.speaker = t.speaker
            ∧ tbt.topic = x)
      ∧ (args.noplaylists = true → t.topics = []) := by
  intro args tbts docs t ht
  simp only [get_all_talks, List.mem_flatMap, List.mem_filterMap] at ht
  obtain ⟨cd, _, ns, _, ti, _, hsome⟩ := ht
  by_cases hp : is_procedural (clean_title ti.rawTitle) = true
  · rw [if_pos hp] at hsome
    exact absurd hsome (by simp)
  · rw [if_neg hp] at hsome
    obtain rfl := Option.some.injEq _ _ ▸ hsome
    constructor
    · intro hnp x
      simp only [hnp, Bool.false_eq_true, if_false, List.mem_map, List.mem_filter,
        Bool.and_eq_true, beq_iff_eq]
      constructor
      · rintro ⟨tbt, ⟨hmem, htitle, hspeaker⟩, htopic⟩
        exact ⟨tbt, hmem, htitle, hspeaker, htopic⟩
      · rintro ⟨tbt, hmem, htitle, hspeaker, htopic⟩
        exact ⟨tbt, ⟨hmem, htitle, hspeaker⟩, htopic⟩
    · intro hnp
      simp [hnp]

/-- Witness for C5 on `docs0`: the extracted talk's topic list is
characterized by the join against `tbts0`, and under `argsNP`
(playlists disabled) the extracted talk has an empty topic list. -/
theorem talk_topics_join_witness :
    ("Faith" ∈ talk0.topics ↔ ∃ tbt ∈ tbts0, tbt.title = talk0.title
        ∧ tbt.speaker = talk0.speaker ∧ tbt.topic = "Faith")
    ∧ talk0NP.topics = [] :=
  ⟨(talk_topics_join args0 tbts0 docs0 talk0 (by decide)).1 rfl "Faith",
   (talk_topics_join argsNP tbts0 docs0 talk0NP (by decide)).2 rfl⟩

theorem pl_get_update_ne {m : PlaylistMap} {k k' : String}
    {f : List PlaylistEntry → List PlaylistEntry} (h : k' ≠ k) :
    pl_get (pl_update m k f) k' = pl_get m k' := by
  induction m with
  | nil => rfl
  | cons kv t ih =>
    by_cases h1 : (kv.1 == k) = true
    · have hk : kv.1 = k := eq_of_beq h1
      have h2 : (kv.1 == k') = false := by
        rw [hk]
        exact beq_eq_false_iff_ne.mpr (fun he => h he.symm)
      simp only [pl_update, pl_get, List.map_cons, List.find?_cons, h1, if_true, h2]
      exact ih
    · rw [Bool.not_eq_true] at h1
      by_cases h2 : (kv.1 == k') = true
      · simp only [pl_update, pl_get, List.map_cons, List.find?_cons, h1, Bool.false_eq_true,
          if_false, h2]
      · rw [Bool.not_eq_true] at h2
        simp only [pl_update, pl_get, List.map_cons, List.find?_cons, h1, Bool.false_eq_true,
          if_false, h2]
        exact ih

theorem pl_get_update_self {m : PlaylistMap} {k : String}
    {f : List PlaylistEntry → List PlaylistEntry} (h : pl_has m k = true) :
    pl_get (pl_update m k f) k = f (pl_get m k) := by
  induction m with
  | nil => exact absurd h (by simp [pl_has])
  | cons kv t ih =>
    by_cases h1 : (kv.1 == k) = true
    · simp only [pl_update, pl_get, List.map_cons, List.find?_cons, h1, if_true]
      rfl
    · rw [Bool.not_eq_true] at h1
      have h' : pl_has t k = true := by
        have := h
        simp only [pl_has, List.any_cons, h1, Bool.false_or] at this
        exact this
      simp only [pl_update, pl_get, List.map_cons, List.find?_cons, h1, Bool.false_eq_true,
        if_false]
      exact ih h'

theorem pl_has_update {m : PlaylistMap} {k' k : String}
    {f : List PlaylistEntry → List PlaylistEntry} :
    pl_has (pl_update m k' f) k = pl_has m k := by
  induction m with
  | nil => rfl
  | cons kv t ih =>
    by_cases h1 : (kv.1 == k') = true
    · have hk : ((if (kv.1 == k') = true then (kv.1, f kv.2) else kv).1) = kv.1 := by
        rw [if_pos h1]
      simp only [pl_update, pl_has, List.map_cons, List.any_cons, if_pos h1]
      simp only [pl_has, pl_update] at ih
      rw [ih]
    · simp only [pl_update, pl_has, List.map_cons, List.any_cons, if_neg h1]
      simp only [pl_has, pl_update] at ih
      rw [ih]

theorem add_topic_entries_get_ne {entry : PlaylistEntry} :
    ∀ (topics : List String) (pl : PlaylistMap) (k : String),
      (∀ t ∈ topics, ("Topics/GC-T-" ++ t) ≠ k) →
      pl_get (add_topic_entries entry topics pl) k = pl_get pl k := by
  intro topics
  induction topics with
  | nil => intro pl k _; rfl
  | cons t ts ih =>
    intro pl k h
    unfold add_topic_entries at *
    rw [List.foldl_cons]
    rw [ih _ k (fun x hx => h x (List.mem_cons_of_mem _ hx))]
    exact pl_get_update_ne (fun he => h t (List.mem_cons_self t ts) he.symm)

theorem add_topic_entries_has {entry : PlaylistEntry} :
    ∀ (topics : List String) (pl : PlaylistMap) (k : String),
      pl_has (add_topic_entries entry topics pl) k = pl_has pl k := by
  intro topics
  induction topics with
  | nil => intro pl k; rfl
  | cons t ts ih =>
    intro pl k
    unfold add_topic_entries at *
    rw [List.foldl_cons, ih]
    exact pl_has_update

theorem add_topic_entries_mem {entry : PlaylistEntry} :
    ∀ (topics : List String) (pl : PlaylistMap) (k : String),
      pl_has pl k = true →
      (entry ∈ pl_get pl k ∨ ∃ t ∈ topics, ("Topics/GC-T-" ++ t) = k) →
      entry ∈ pl_get (add_topic_entries entry topics pl) k := by
  intro topics
  induction topics with
  | nil =>
    intro pl k _ hsrc
    rcases hsrc with hmem | ⟨t, ht, _⟩
    · exact hmem
    · exact absurd ht (List.not_mem_nil t)
  | cons t ts ih =>
    intro pl k hhas hsrc
    unfold add_topic_entries at *
    rw [List.foldl_cons]
    by_cases hk : ("Topics/GC-T-" ++ t) = k
    · apply ih
      · rw [pl_has_update]; exact hhas
      · left
        rw [← hk, pl_get_update_self (by rw [hk]; exact hhas)]
        exact List.mem_cons_self entry _
    · apply ih
      · rw [pl_has_update]; exact hhas
      · rcases hsrc with hmem | ⟨t', ht', hkt'⟩
        · left
          rw [pl_get_update_ne (fun he => hk he.symm)]
          exact hmem
        · rcases List.mem_cons.mp ht' with rfl | hts
          · exact absurd hkt' hk
          · right; exact ⟨t', hts, hkt'⟩

theorem topics_key_ne_speakers_key (a b : String) :
    ("Topics/GC-T-" ++ a) ≠ ("Speakers/GC-S-" ++ b) := by
  intro h
  have h2 := congrArg String.data h
  rw [String.data_append, String.data_append] at h2
  rw [show "Topics/GC-T-".data = 'T' :: "opics/GC-T-".data from rfl,
    show "Speakers/GC-S-".data = 'S' :: "peakers/GC-S-".data from rfl] at h2
  simp at h2

theorem gcall_key_ne_speakers_key (b : String) :
    ("Conferences/GC-All" : String) ≠ ("Speakers/GC-S-" ++ b) := by
  intro h
  have h2 := congrArg String.data h
  rw [String.data_append] at h2
  rw [show "Conferences/GC-All".data = 'C' :: "onferences/GC-All".data from rfl,
    show "Speakers/GC-S-".data = 'S' :: "peakers/GC-S-".data from rfl] at h2
  simp at h2

/-- C2: a talk whose cleaned title contains `"Sustaining of"` or starts
with `"Church Auditing"` never appears in the session-ordered working
set built by `get_all_talks`; and the speaker-bucket filter of
`update_playlists` leaves every speaker bucket unchanged for such a talk
while still prepending the talk's entry to each of its topic buckets. -/
theorem procedural_talks_filtered :
    (∀ (args : DlArgs) (tbts : List TalkByTopic) (docs : List ConfDoc) (t : Talk),
      t ∈ get_all_talks args tbts docs → is_procedural t.title = false)
    ∧ (∀ (pl : PlaylistMap) (talk : Talk) (dur : Nat) (path : String),
        is_procedural talk.title = true →
        (∀ sp : String,
          pl_get (update_playlists pl talk dur path) ("Speakers/GC-S-" ++ sp)
            = pl_get pl ("Speakers/GC-S-" ++ sp))
        ∧ (∀ topic ∈ talk.topics,
            pl_has pl ("Topics/GC-T-" ++ topic) = true →
            ({ duration := dur, path := path, title := talk.title,
               year := some talk.session.conference.year } : PlaylistEntry)
              ∈ pl_get (update_playlists pl talk dur path) ("Topics/GC-T-" ++ topic))) := by
  constructor
  · intro args tbts docs t ht
    simp only [get_all_talks, List.mem_flatMap, List.mem_filterMap] at ht
    obtain ⟨cd, _, ns, _, ti, _, hsome⟩ := ht
    by_cases hp : is_procedural (clean_title ti.rawTitle) = true
    · rw [if_pos hp] at hsome
      exact absurd hsome (by simp)
    · rw [if_neg hp] at hsome
      obtain rfl := Option.some.injEq _ _ ▸ hsome
      exact Bool.not_eq_true _ ▸ hp
  · intro pl talk dur path hproc
    constructor
    · intro sp
      simp only [update_playlists, hproc, if_true]
      rw [add_topic_entries_get_ne talk.topics _ _ (fun t _ => topics_key_ne_speakers_key t sp)]
      exact pl_get_update_ne (fun he => gcall_key_ne_speakers_key sp he.symm)
    · intro topic htopic hhas
      simp only [update_playlists, hproc, if_true]
      apply add_topic_entries_mem
      · rw [pl_has_update]
        exact hhas
      · right
        exact ⟨topic, htopic, rfl⟩

/-- Witness for C2: the sustaining item of `docs0` is not extracted (the
extracted talk is the regular one, and it is non-procedural), and
updating playlists with the sustaining talk `talkP` leaves its speaker
bucket unchanged while its entry lands in its topic bucket. -/
theorem procedural_talks_filtered_witness :
    is_procedural talk0.title = false
    ∧ pl_get (update_playlists plP talkP 100 "p") ("Speakers/GC-S-" ++ "Pres B")
        = pl_get plP ("Speakers/GC-S-" ++ "Pres B")
    ∧ ({ duration := 100, path := "p", title := talkP.title,
         year := some talkP.session.conference.year } : PlaylistEntry)
        ∈ pl_get (update_playlists plP talkP 100 "p") ("Topics/GC-T-" ++ "Priesthood") :=
  ⟨procedural_talks_filtered.1 args0 tbts0 docs0 talk0 (by decide),
   (procedural_talks_filtered.2 plP talkP 100 "p" (by decide)).1 "Pres B",
   (procedural_talks_filtered.2 plP talkP 100 "p" (by decide)).2 "Priesthood" (by decide)
     (by decide)⟩

end GenConf
